import Mathlib

/-!
# Whister core game logic: shallow embedding and verification

This file embeds the core game-state logic of the Whister repository
(a 4-player Whist room server) in Lean 4 and proves properties of it.

Embedded components:
* `ScoringService` (app/services/scoring_service.py): contract-bid
  validation, game-type determination, round scoring.
* `BiddingService` (backend/app/services/bidding_service.py): minimum-bid
  progression, trump-bid validation, trump-bid placement, frisch handling.
  The Redis round hash is modelled as an explicit `RoundState` record and
  the async Redis calls as pure state passing; a missing hash (empty
  `hgetall` result) is modelled as `none`.
* `RoomManager` (app/websocket/room_manager.py): the join/reconnect flow
  over an explicit `RoomMgrState` record standing for the per-room and
  per-user Redis keys.
* A `TrickTracker`, modelled from the specification, because no
  implementation of trick claiming exists in the source tree (only
  schemas, database check constraints and websocket event names).

Python `int` is modelled as `Int` (arbitrary precision, no overflow);
Python tuples `(bool, str | None)` as `Bool × Option String`; raised
exceptions as `Except String`.
-/

/-- Game type enumeration (app/schemas/game.py, `GameType`). -/
inductive GameType where
  | over
  | under
deriving DecidableEq, BEq, Repr, Fintype

/-- Trump suit enumeration (app/schemas/game.py, `TrumpSuit`). -/
inductive TrumpSuit where
  | clubs
  | diamonds
  | hearts
  | spades
  | no_trump
deriving DecidableEq, BEq, Repr, Fintype

/-- String value of a trump suit, as in the Python `str`-valued enum. -/
def TrumpSuit.value : TrumpSuit → String
  | .clubs => "clubs"
  | .diamonds => "diamonds"
  | .hearts => "hearts"
  | .spades => "spades"
  | .no_trump => "no_trump"

/-- Round phase enumeration (app/schemas/game.py, `RoundPhase`). -/
inductive RoundPhase where
  | trump_bidding
  | frisch
  | contract_bidding
  | playing
  | complete
deriving DecidableEq, BEq, Repr

/-- `ScoringService.validate_contract_bid`
(app/services/scoring_service.py lines 8-48): range check, then
trump-winner minimum, then last-bidder sum constraint, in that order. -/
def validate_contract_bid (bid_amount current_sum : Int)
    (is_last_bidder is_trump_winner : Bool) (trump_winning_bid : Int) :
    Bool × Option String :=
  if ¬(0 ≤ bid_amount ∧ bid_amount ≤ 13) then
    (false, some "Contract must be between 0 and 13")
  else if is_trump_winner ∧ bid_amount < trump_winning_bid then
    (false, some ("Trump winner must bid at least " ++ toString trump_winning_bid))
  else if is_last_bidder ∧ current_sum + bid_amount = 13 then
    (false, some "Last bidder cannot make the sum equal 13")
  else
    (true, none)

/-- `ScoringService.determine_game_type`
(app/services/scoring_service.py lines 50-73); the two `ValueError`s of
the Python code are modelled as `Except.error`. -/
def determine_game_type (contracts : List Int) : Except String GameType :=
  if contracts.length ≠ 4 then
    .error ("Expected 4 contracts, got " ++ toString contracts.length)
  else if contracts.sum = 13 then
    .error "Invalid contract sum: equals 13 (violates last_bidder rule)"
  else if contracts.sum > 13 then
    .ok GameType.over
  else
    .ok GameType.under

/-- `ScoringService.calculate_round_score`
(app/services/scoring_service.py lines 93-136). -/
def calculate_round_score (contract_bid tricks_won : Int)
    (game_type : GameType) : Int :=
  let is_over : Bool := game_type == GameType.over
  if contract_bid = 0 then
    if tricks_won = 0 then
      if is_over then 25 else 50
    else if tricks_won = 1 then
      -50
    else
      -50 + (tricks_won - 1) * 10
  else if tricks_won = contract_bid then
    contract_bid * contract_bid + 10
  else
    |tricks_won - contract_bid| * -10

/-- The scoring formula exactly as the specification words it
(spec §4.1, `calculateRoundScore`); kept separate from
`calculate_round_score` so the code can be compared against it. -/
def spec_round_score (contractBid tricksWon : Nat) (gameType : GameType) : Int :=
  if contractBid = 0 then
    if tricksWon = 0 then
      if gameType = GameType.over then 25 else 50
    else if tricksWon = 1 then
      -50
    else
      -50 + 10 * ((tricksWon : Int) - 1)
  else
    if tricksWon = contractBid then
      (contractBid : Int) ^ 2 + 10
    else
      -10 * |(tricksWon : Int) - (contractBid : Int)|

/-- `SUIT_ORDER` (backend/app/services/bidding_service.py lines 17-24):
suit ranking used to compare trump bids of equal amount. -/
def SUIT_ORDER : TrumpSuit → Nat
  | .clubs => 0
  | .diamonds => 1
  | .hearts => 2
  | .spades => 3
  | .no_trump => 4

/-- `MINIMUM_BID_PROGRESSION` (backend/app/services/bidding_service.py
line 27): minimum bid indexed by frisch count. -/
def MINIMUM_BID_PROGRESSION : List Int := [5, 6, 7, 8]

/-- `BiddingService.get_minimum_bid`
(backend/app/services/bidding_service.py lines 42-59): the index is
clamped to the last progression entry. -/
def get_minimum_bid (frisch_count : Nat) : Int :=
  let fc := if frisch_count ≥ MINIMUM_BID_PROGRESSION.length
            then MINIMUM_BID_PROGRESSION.length - 1 else frisch_count
  MINIMUM_BID_PROGRESSION.getD fc 0

/-- `BidInfo` (app/schemas/game.py lines 61-69): a trump bid; `suit` is
`none` for a pass. -/
structure BidInfo where
  player_id : String
  player_name : String
  amount : Int
  suit : Option TrumpSuit := none
  is_pass : Bool := false
deriving DecidableEq, Repr

/-- `BiddingService.validate_trump_bid`
(backend/app/services/bidding_service.py lines 61-126). The interpolated
parts of the Python error messages are rendered with the enum value
string. -/
def validate_trump_bid (new_bid_amount : Int) (new_bid_suit : TrumpSuit)
    (current_highest : Option BidInfo) (minimum_bid : Int) :
    Bool × Option String :=
  if new_bid_amount < minimum_bid then
    (false, some ("Bid must be at least " ++ toString minimum_bid))
  else if new_bid_amount > 13 then
    (false, some "Bid cannot exceed 13")
  else
    match current_highest with
    | none => (true, none)
    | some h =>
      if new_bid_amount > h.amount then
        (true, none)
      else if new_bid_amount = h.amount then
        match h.suit with
        | none => (false, some "Cannot bid without a suit")
        | some hs =>
          if SUIT_ORDER new_bid_suit > SUIT_ORDER hs then
            (true, none)
          else
            (false, some ("Must bid higher than " ++ toString h.amount ++ " "
              ++ hs.value ++ ", or same amount with higher suit"))
      else
        (false, some ("Must bid at least " ++ toString h.amount ++ " "
          ++ (match h.suit with | none => "None" | some hs => hs.value)))

/-- The round hash `room:{code}:round` kept by `BiddingService` in Redis,
restricted to the fields the bidding operations read and write. An empty
`highest_bid` string is modelled as `none`. -/
structure RoundState where
  current_bidder_id : Option String := none
  highest_bid : Option BidInfo := none
  minimum_bid : Int := 5
  consecutive_passes : Nat := 0
  frisch_count : Nat := 0
deriving DecidableEq, Repr

/-- `BiddingService.place_trump_bid`
(backend/app/services/bidding_service.py lines 128-205). The argument
`round` is the current round hash (`none` when `hgetall` returns no
data); the returned state is the hash after the call. The Python method
writes only `highest_bid` and `consecutive_passes` on success and
returns without writing on every rejection path. -/
def place_trump_bid (round : Option RoundState) (user_id player_name : String)
    (bid_amount : Int) (bid_suit : TrumpSuit) :
    (Bool × Option String) × Option RoundState :=
  match round with
  | none => ((false, some "Round not found"), none)
  | some s =>
    match s.current_bidder_id with
    | none => ((false, some "Not your turn"), some s)
    | some cb =>
      if cb ≠ user_id then
        ((false, some "Not your turn"), some s)
      else
        match validate_trump_bid bid_amount bid_suit s.highest_bid s.minimum_bid with
        | (true, _) =>
          ((true, none),
            some { s with
                   highest_bid := some { player_id := user_id,
                                         player_name := player_name,
                                         amount := bid_amount,
                                         suit := some bid_suit,
                                         is_pass := false },
                   consecutive_passes := 0 })
        | (false, error_msg) => ((false, error_msg), some s)

/-- `BiddingService.handle_frisch`
(backend/app/services/bidding_service.py lines 249-297). -/
def handle_frisch (round : Option RoundState) :
    (Bool × Option String) × Option RoundState :=
  match round with
  | none => ((false, some "Round not found"), none)
  | some s =>
    if s.frisch_count ≥ 3 then
      ((false, some "Maximum frisch rounds (3) reached"), some s)
    else
      let n := s.frisch_count + 1
      ((true, none),
        some { s with frisch_count := n,
                      minimum_bid := get_minimum_bid n,
                      highest_bid := none,
                      consecutive_passes := 0 })

/-- A concrete round in trump bidding: it is the seat of player id
"alice" to bid, no highest bid yet, minimum bid 5. -/
def exampleRound : RoundState :=
  { current_bidder_id := some "alice", highest_bid := none,
    minimum_bid := 5, consecutive_passes := 2, frisch_count := 0 }

/-- `PlayerInfo` (app/websocket/schemas.py) as stored in the
`room:{code}:players` hash keyed by seat. -/
structure PlayerInfoW where
  user_id : String
  display_name : String
  seat_position : Nat
  is_admin : Bool
  is_connected : Bool
deriving DecidableEq, Repr

/-- The `room:{code}` hash fields `RoomManager.join_room` reads. -/
structure RoomData where
  game_id : String
  admin_id : String
  status : String
deriving DecidableEq, Repr

/-- The `reconnect:{user_id}` hash written by
`RoomManager._mark_player_disconnected`
(app/websocket/room_manager.py lines 386-419). -/
structure ReconnectData where
  room_code : String
  seat_position : Nat
deriving DecidableEq, Repr

/-- The Redis state `RoomManager` consults for one room and one joining
user: the room hash, the players hash, and that user reconnect entry. -/
structure RoomMgrState where
  room : Option RoomData
  players : List PlayerInfoW
  reconnect : Option ReconnectData
deriving DecidableEq, Repr

/-- `RoomManager._find_player_seat`
(app/websocket/room_manager.py lines 305-316). -/
def find_player_seat (ps : List PlayerInfoW) (user_id : String) : Option Nat :=
  (ps.find? (fun p => p.user_id == user_id)).map (fun p => p.seat_position)

/-- `RoomManager._update_player_connection`
(app/websocket/room_manager.py lines 363-384), restricted to the players
hash: mark the player at the given seat connected. -/
def update_player_connection (ps : List PlayerInfoW) (seat : Nat) :
    List PlayerInfoW :=
  ps.map (fun p => if p.seat_position = seat then { p with is_connected := true } else p)

/-- The tail of `RoomManager.join_room` after the reconnection check
(app/websocket/room_manager.py lines 127-180): an already-seated player
just refreshes the connection, otherwise the first free seat in 0..3 is
assigned. -/
def join_room_no_reconnect (st : RoomMgrState) (room : RoomData)
    (user_id display_name : String) : Except String Nat × RoomMgrState :=
  match find_player_seat st.players user_id with
  | some seat =>
    (.ok seat, { st with players := update_player_connection st.players seat })
  | none =>
    let occupied := st.players.map (fun p => p.seat_position)
    match (List.range 4).find? (fun s => ¬ occupied.contains s) with
    | some seat =>
      (.ok seat,
        { st with players := st.players ++
            [{ user_id := user_id, display_name := display_name,
               seat_position := seat, is_admin := room.admin_id == user_id,
               is_connected := true }] })
    | none => (.error "No available seat", st)

/-- `RoomManager.join_room` (app/websocket/room_manager.py lines 72-180).
The checks appear in source order: room existence, then room capacity
(`len(players) >= 4`), then the reconnection branch, then the
already-in-room branch, then a fresh seat assignment. The result is the
assigned seat or the raised `NotFoundError` message. -/
def join_room (st : RoomMgrState) (room_code user_id display_name : String) :
    Except String Nat × RoomMgrState :=
  match st.room with
  | none => (.error "Room not found", st)
  | some room =>
    if st.players.length ≥ 4 then
      (.error "Room is full", st)
    else
      match st.reconnect with
      | some rc =>
        if rc.room_code == room_code then
          (.ok rc.seat_position,
            { st with reconnect := none,
                      players := update_player_connection st.players rc.seat_position })
        else
          join_room_no_reconnect st room user_id display_name
      | none => join_room_no_reconnect st room user_id display_name

/-- `RoomManager._mark_player_disconnected`
(app/websocket/room_manager.py lines 386-419): the seat entry is kept
(only flagged disconnected) and a grace-period reconnect entry is
written. Called by `handle_disconnect` when the game is in progress. -/
def mark_player_disconnected (st : RoomMgrState) (room_code user_id : String)
    (seat : Nat) : RoomMgrState :=
  { st with
    players := st.players.map (fun p =>
      if p.seat_position = seat then { p with is_connected := false } else p),
    reconnect := some { room_code := room_code, seat_position := seat } }

/-- A full in-progress room: 4 connected players, game past the waiting
phase. -/
def fullRoomState : RoomMgrState :=
  { room := some { game_id := "g1", admin_id := "alice", status := "trump_bidding" },
    players :=
      [{ user_id := "alice", display_name := "Alice", seat_position := 0,
         is_admin := true, is_connected := true },
       { user_id := "bob", display_name := "Bob", seat_position := 1,
         is_admin := false, is_connected := true },
       { user_id := "carol", display_name := "Carol", seat_position := 2,
         is_admin := false, is_connected := true },
       { user_id := "dave", display_name := "Dave", seat_position := 3,
         is_admin := false, is_connected := true }],
    reconnect := none }

/-- Modelled from the spec: the `TrickTracker` component (spec §4.4) is
not implemented anywhere under src/ (only its websocket payload schemas,
event names `round:claim_trick` and `round:undo_trick`, and the database
check constraints exist), so its state is modelled from the words of the
specification: per-seat tricks won (init 0), total tricks played
(init 0), and the round phase. -/
structure TrickTracker where
  tricks0 : Nat
  tricks1 : Nat
  tricks2 : Nat
  tricks3 : Nat
  totalTricksPlayed : Nat
  phase : RoundPhase
deriving DecidableEq, Repr

/-- Initial trick-tracking state at the start of the playing phase. -/
def TrickTracker.init : TrickTracker :=
  { tricks0 := 0, tricks1 := 0, tricks2 := 0, tricks3 := 0,
    totalTricksPlayed := 0, phase := RoundPhase.playing }

/-- Tricks won by the given seat. -/
def TrickTracker.seatTricks (s : TrickTracker) (seat : Fin 4) : Nat :=
  match seat with
  | 0 => s.tricks0
  | 1 => s.tricks1
  | 2 => s.tricks2
  | 3 => s.tricks3

/-- Replace the trick count of the given seat. -/
def TrickTracker.setSeatTricks (s : TrickTracker) (seat : Fin 4) (n : Nat) :
    TrickTracker :=
  match seat with
  | 0 => { s with tricks0 := n }
  | 1 => { s with tricks1 := n }
  | 2 => { s with tricks2 := n }
  | 3 => { s with tricks3 := n }

/-- Sum of tricks won across the 4 seats. -/
def TrickTracker.sumTricks (s : TrickTracker) : Nat :=
  s.tricks0 + s.tricks1 + s.tricks2 + s.tricks3

/-- Modelled from the spec: `claimTrick(seat)` (spec §4.4) fails with
ROUND_COMPLETE when 13 tricks have been played, otherwise increments the
seat count and the total, transitioning to the complete phase when the
total reaches 13. -/
def claimTrick (s : TrickTracker) (seat : Fin 4) :
    (Bool × Option String) × TrickTracker :=
  if s.totalTricksPlayed = 13 then
    ((false, some "ROUND_COMPLETE"), s)
  else
    let newTotal := s.totalTricksPlayed + 1
    let s1 := s.setSeatTricks seat (s.seatTricks seat + 1)
    ((true, none),
      { s1 with totalTricksPlayed := newTotal,
                phase := if newTotal = 13 then RoundPhase.complete else s1.phase })

/-- Modelled from the spec: `undoTrick(seat)` (spec §4.4) is rejected on
a completed round, fails with NO_TRICKS_TO_UNDO when the seat has no
tricks, and otherwise decrements the seat count and the total. -/
def undoTrick (s : TrickTracker) (seat : Fin 4) :
    (Bool × Option String) × TrickTracker :=
  if s.phase = RoundPhase.complete then
    ((false, some "ROUND_ALREADY_COMPLETE"), s)
  else if s.seatTricks seat = 0 then
    ((false, some "NO_TRICKS_TO_UNDO"), s)
  else
    let s1 := s.setSeatTricks seat (s.seatTricks seat - 1)
    ((true, none), { s1 with totalTricksPlayed := s.totalTricksPlayed - 1 })

/-- The trick-tracking states reachable from the start of the playing
phase through claim and undo operations. -/
inductive TrickReachable : TrickTracker → Prop where
  | init : TrickReachable TrickTracker.init
  | claim (s : TrickTracker) (seat : Fin 4) :
      TrickReachable s → TrickReachable (claimTrick s seat).2
  | undo (s : TrickTracker) (seat : Fin 4) :
      TrickReachable s → TrickReachable (undoTrick s seat).2

/-- The inductive invariant of trick tracking: the per-seat counts sum to
the running total, the total never exceeds 13, and the phase is complete
exactly when the total is 13. -/
def TrickInv (s : TrickTracker) : Prop :=
  s.sumTricks = s.totalTricksPlayed ∧ s.totalTricksPlayed ≤ 13 ∧
    (s.phase = RoundPhase.complete ↔ s.totalTricksPlayed = 13)

theorem range_msg_ne_trump_msg (n : Int) :
    "Contract must be between 0 and 13"
      ≠ "Trump winner must bid at least " ++ toString n := by
  intro h
  have h2 := congrArg String.data h
  simp [String.data_append] at h2

theorem sum_msg_ne_trump_msg (n : Int) :
    "Last bidder cannot make the sum equal 13"
      ≠ "Trump winner must bid at least " ++ toString n := by
  intro h
  have h2 := congrArg String.data h
  simp [String.data_append] at h2

theorem trickInv_of_reachable (s : TrickTracker) (h : TrickReachable s) :
    TrickInv s := by
  induction h with
  | init => simp [TrickInv, TrickTracker.init, TrickTracker.sumTricks]
  | claim t seat ht ih =>
    obtain ⟨hsum, hle, hph⟩ := ih
    by_cases h13 : t.totalTricksPlayed = 13
    · have heq : (claimTrick t seat).2 = t := by simp [claimTrick, h13]
      rw [heq]
      exact ⟨hsum, hle, hph⟩
    · fin_cases seat <;>
        simp_all [claimTrick, h13, TrickInv, TrickTracker.setSeatTricks,
          TrickTracker.seatTricks, TrickTracker.sumTricks] <;>
        omega
  | undo t seat ht ih =>
    obtain ⟨hsum, hle, hph⟩ := ih
    by_cases hc : t.phase = RoundPhase.complete
    · have heq : (undoTrick t seat).2 = t := by simp [undoTrick, hc]
      rw [heq]
      exact ⟨hsum, hle, hph⟩
    · by_cases hz : t.seatTricks seat = 0
      · have heq : (undoTrick t seat).2 = t := by simp [undoTrick, hc, hz]
        rw [heq]
        exact ⟨hsum, hle, hph⟩
      · fin_cases seat <;>
          simp_all [undoTrick, hc, TrickInv, TrickTracker.setSeatTricks,
            TrickTracker.seatTricks, TrickTracker.sumTricks] <;>
          omega

/-- C1: for every contract bid in 0..13, tricks won in 0..13 and game
type, `calculate_round_score` returns exactly the values the
specification states: bid 0 made gives +25 in an over game and +50 in an
under game, bid 0 failed by one trick gives -50, failed by k at least 2
gives -50 + 10(k-1); bid at least 1 made gives bid squared plus 10, and
failed gives -10 times the absolute deviation. -/
theorem calculate_round_score_matches_spec :
    ∀ b < 14, ∀ t < 14, ∀ g : GameType,
      calculate_round_score (b : Nat) (t : Nat) g = spec_round_score b t g := by
  decide

theorem calculate_round_score_matches_spec_witness :
    5 < 14 ∧ 5 < 14 ∧
      calculate_round_score ((5 : Nat) : Int) ((5 : Nat) : Int) GameType.under
        = spec_round_score 5 5 GameType.under :=
  ⟨by decide, by decide,
    calculate_round_score_matches_spec 5 (by decide) 5 (by decide) GameType.under⟩

/-- C2: `validate_contract_bid` fails with the range error exactly when
the amount is outside 0..13; otherwise fails with the trump-minimum
error exactly when the caller is the trump winner bidding below the
winning trump bid; otherwise fails with the sum error exactly when the
caller is the last bidder and the bids would sum to 13; otherwise
succeeds. The checks therefore apply in the order range, trump minimum,
sum constraint, and the last bidder can never make the sum reach 13. -/
theorem validate_contract_bid_spec (a cs : Int) (ilb itw : Bool) (twb : Int) :
    (validate_contract_bid a cs ilb itw twb
        = (false, some "Contract must be between 0 and 13")
      ↔ ¬(0 ≤ a ∧ a ≤ 13)) ∧
    (validate_contract_bid a cs ilb itw twb
        = (false, some ("Trump winner must bid at least " ++ toString twb))
      ↔ (0 ≤ a ∧ a ≤ 13) ∧ itw = true ∧ a < twb) ∧
    (validate_contract_bid a cs ilb itw twb
        = (false, some "Last bidder cannot make the sum equal 13")
      ↔ (0 ≤ a ∧ a ≤ 13) ∧ ¬(itw = true ∧ a < twb) ∧ ilb = true ∧ cs + a = 13) ∧
    ((validate_contract_bid a cs ilb itw twb).1 = true
      ↔ (0 ≤ a ∧ a ≤ 13) ∧ ¬(itw = true ∧ a < twb) ∧ ¬(ilb = true ∧ cs + a = 13)) ∧
    (ilb = true → cs + a = 13 → (validate_contract_bid a cs ilb itw twb).1 = false) := by
  unfold validate_contract_bid
  split_ifs with h1 h2 h3 <;>
    simp_all [range_msg_ne_trump_msg twb, (range_msg_ne_trump_msg twb).symm,
      sum_msg_ne_trump_msg twb, (sum_msg_ne_trump_msg twb).symm]

theorem validate_contract_bid_spec_witness :
    (6 : Int) + 7 = 13 ∧ (validate_contract_bid 7 6 true false 0).1 = false :=
  ⟨by decide, (validate_contract_bid_spec 7 6 true false 0).2.2.2.2 rfl (by decide)⟩

/-- C3: `validate_trump_bid` accepts a bid exactly when its amount is
between the minimum bid and 13 and it strictly outranks the current
highest bid: no highest bid yet, a strictly larger amount, or the same
amount with a suit ranking strictly higher under
clubs < diamonds < hearts < spades < no-trump. In range but not
outranking is always rejected. -/
theorem validate_trump_bid_accepts_iff (amt : Int) (suit : TrumpSuit)
    (cur : Option BidInfo) (minBid : Int) :
    (validate_trump_bid amt suit cur minBid).1 = true ↔
      minBid ≤ amt ∧ amt ≤ 13 ∧
        (cur = none ∨ ∃ h, cur = some h ∧
          (h.amount < amt ∨ (amt = h.amount ∧
            ∃ hs, h.suit = some hs ∧ SUIT_ORDER hs < SUIT_ORDER suit))) := by
  unfold validate_trump_bid
  rcases cur with _ | h
  · split_ifs <;> simp_all
  · rcases hs : h.suit with _ | s <;>
      · simp only [hs]
        split_ifs <;> simp_all

/-- C4: evidence for the divergence between the code and the claim that
a successful trump bid advances the current bidder. On a round where it
is the turn of "alice", her valid bid succeeds, the highest bid is
replaced and the consecutive passes reset, but `current_bidder_id` is
left untouched (the Python method never writes it, contradicting its own
docstring). A bid from a player out of turn is rejected with the
not-your-turn error, as the claim states. -/
theorem place_trump_bid_success_keeps_bidder :
    place_trump_bid (some exampleRound) "alice" "Alice" 6 TrumpSuit.hearts
      = ((true, none),
          some { exampleRound with
                 highest_bid := some { player_id := "alice",
                                       player_name := "Alice",
                                       amount := 6,
                                       suit := some TrumpSuit.hearts,
                                       is_pass := false },
                 consecutive_passes := 0 }) ∧
    ((place_trump_bid (some exampleRound) "alice" "Alice" 6 TrumpSuit.hearts).2.map
        (fun s => s.current_bidder_id)) = some (some "alice") ∧
    (place_trump_bid (some exampleRound) "bob" "Bob" 6 TrumpSuit.hearts).1
      = (false, some "Not your turn") := by
  refine ⟨rfl, rfl, rfl⟩

/-- C5: `handle_frisch` on an existing round succeeds exactly when the
frisch count is below 3; on success it increments the frisch count, sets
the minimum bid to the progression value of the new count, clears the
highest bid and resets the consecutive passes; at frisch count 3 it
fails with the max-frisch error and leaves the round unchanged. -/
theorem handle_frisch_spec (s : RoundState) :
    ((handle_frisch (some s)).1.1 = true ↔ s.frisch_count < 3) ∧
    (s.frisch_count < 3 → handle_frisch (some s) =
      ((true, none), some { s with frisch_count := s.frisch_count + 1,
                                   minimum_bid := get_minimum_bid (s.frisch_count + 1),
                                   highest_bid := none,
                                   consecutive_passes := 0 })) ∧
    (s.frisch_count = 3 → handle_frisch (some s) =
      ((false, some "Maximum frisch rounds (3) reached"), some s)) := by
  by_cases h : s.frisch_count ≥ 3 <;> simp [handle_frisch, h] <;> omega

theorem handle_frisch_spec_witness :
    exampleRound.frisch_count < 3 ∧
      handle_frisch (some exampleRound) =
        ((true, none),
          some { exampleRound with
                 frisch_count := exampleRound.frisch_count + 1,
                 minimum_bid := get_minimum_bid (exampleRound.frisch_count + 1),
                 highest_bid := none,
                 consecutive_passes := 0 }) :=
  ⟨by decide, (handle_frisch_spec exampleRound).2.1 (by decide)⟩

/-- C6: evidence for the divergence between the code and the claim that
a player who disconnects mid-game and rejoins within the grace period
reclaims their seat. After "dave" (seat 3) disconnects from a full
in-progress room, the seat entry is retained and the reconnect entry is
written, so the room still holds 4 player entries; `join_room` checks
capacity before the reconnection branch and rejects him with the
room-full error instead of returning seat 3. -/
theorem join_room_reconnect_rejected_room_full :
    (mark_player_disconnected fullRoomState "ROOM42" "dave" 3).reconnect
        = some { room_code := "ROOM42", seat_position := 3 } ∧
    (mark_player_disconnected fullRoomState "ROOM42" "dave" 3).players.length = 4 ∧
    (join_room (mark_player_disconnected fullRoomState "ROOM42" "dave" 3)
        "ROOM42" "dave" "Dave").1 = .error "Room is full" := by
  refine ⟨rfl, rfl, rfl⟩

/-- C7: for every list of exactly 4 contract bids, `determine_game_type`
returns the over game type exactly when the sum exceeds 13, the under
game type exactly when the sum is below 13, and fails exactly when the
sum equals 13. -/
theorem determine_game_type_spec (contracts : List Int)
    (hlen : contracts.length = 4) :
    (determine_game_type contracts = .ok GameType.over ↔ contracts.sum > 13) ∧
    (determine_game_type contracts = .ok GameType.under ↔ contracts.sum < 13) ∧
    ((∃ e, determine_game_type contracts = .error e) ↔ contracts.sum = 13) := by
  unfold determine_game_type
  rw [hlen]
  split_ifs with h1 h2 h3 <;> simp_all <;> omega

theorem determine_game_type_spec_witness :
    ∃ e, determine_game_type [5, 5, 2, 1] = .error e :=
  (determine_game_type_spec [5, 5, 2, 1] (by decide)).2.2.mpr (by decide)

/-- C8: the minimum bid is 5, 6, 7, 8 for frisch counts 0, 1, 2, 3 and
stays 8 for every larger frisch count. -/
theorem get_minimum_bid_progression :
    get_minimum_bid 0 = 5 ∧ get_minimum_bid 1 = 6 ∧
    get_minimum_bid 2 = 7 ∧ get_minimum_bid 3 = 8 ∧
    ∀ n : Nat, 3 < n → get_minimum_bid n = 8 := by
  refine ⟨rfl, rfl, rfl, rfl, fun n hn => ?_⟩
  unfold get_minimum_bid MINIMUM_BID_PROGRESSION
  simp only [List.length_cons, List.length_nil]
  rw [if_pos (by omega)]
  rfl

theorem get_minimum_bid_progression_witness :
    3 < 7 ∧ get_minimum_bid 7 = 8 :=
  ⟨by decide, get_minimum_bid_progression.2.2.2.2 7 (by decide)⟩

/-- C9: in every trick-tracking state reachable from the start of the
playing phase, the sum of tricks won across the 4 seats never exceeds
13, and when that sum reaches exactly 13 the round is in the complete
phase and no further trick can be claimed. -/
theorem trick_sum_invariant (s : TrickTracker) (h : TrickReachable s) :
    s.sumTricks ≤ 13 ∧
      (s.sumTricks = 13 →
        s.phase = RoundPhase.complete ∧
          ∀ seat : Fin 4, (claimTrick s seat).1.1 = false) := by
  obtain ⟨hsum, hle, hph⟩ := trickInv_of_reachable s h
  refine ⟨by omega, fun h13 => ⟨hph.mpr (by omega), fun seat => ?_⟩⟩
  simp [claimTrick, hsum.symm.trans h13]

theorem trick_sum_invariant_witness :
    TrickTracker.init.sumTricks ≤ 13 ∧
      (TrickTracker.init.sumTricks = 13 →
        TrickTracker.init.phase = RoundPhase.complete ∧
          ∀ seat : Fin 4, (claimTrick TrickTracker.init seat).1.1 = false) :=
  trick_sum_invariant TrickTracker.init TrickReachable.init

/-- C10: every rejected trump-bid attempt (missing round, wrong turn, or
failed bid validation) leaves the stored round state untouched; the
round hash is written only after validation has succeeded. -/
theorem place_trump_bid_rejected_state_unchanged (round : Option RoundState)
    (uid pname : String) (amt : Int) (suit : TrumpSuit) :
    (place_trump_bid round uid pname amt suit).1.1 = false →
    (place_trump_bid round uid pname amt suit).2 = round := by
  rcases round with _ | s
  · simp [place_trump_bid]
  · rcases hc : s.current_bidder_id with _ | cb
    · simp [place_trump_bid, hc]
    · by_cases hcb : cb = uid
      · rcases hv : validate_trump_bid amt suit s.highest_bid s.minimum_bid
          with ⟨_ | _, msg⟩ <;> simp [place_trump_bid, hc, hcb, hv]
      · simp [place_trump_bid, hc, hcb]

theorem place_trump_bid_rejected_state_unchanged_witness :
    (place_trump_bid (some exampleRound) "bob" "Bob" 6 TrumpSuit.hearts).2
      = some exampleRound :=
  place_trump_bid_rejected_state_unchanged (some exampleRound) "bob" "Bob" 6
    TrumpSuit.hearts (by decide)
